import Mathlib

/-!
Verification development for the DICOM viewer volume pipeline.

The Python sources are shallowly embedded: pure functions become Lean
functions over exact rationals (`ℚ` in place of IEEE floats — every
concrete scenario below uses dyadic values that are exact in binary64,
so the models agree with the floating-point code on those inputs),
fallible code returns `Except PyErr`, and the stateful reconstruction /
cache endpoints become explicit state-passing functions.
-/

set_option autoImplicit false

namespace DicomViewer

/-- Python exception classes raised on the modelled code paths.
`valueError` corresponds to the spec's InvalidInput/InvalidRange/NoSurfaceFound
family, `runtimeError` to ProcessingError/EmptySeries, `indexError` to a bare
out-of-bounds list subscript. -/
inductive PyErr where
  | valueError (msg : String)
  | runtimeError (msg : String)
  | indexError
  | fileNotFound (msg : String)
  | httpNotFound (msg : String)
  deriving DecidableEq, Repr

/-- Value stored in an `Except.ok`, with a default for the error case. -/
def exceptOkD {ε α : Type} (d : α) : Except ε α → α
  | .ok a => a
  | .error _ => d

/-- `Except.isOk` as a Bool, for stating success conditions. -/
def exceptIsOk {ε α : Type} : Except ε α → Bool
  | .ok _ => true
  | .error _ => false

instance {ε α : Type} [DecidableEq ε] [DecidableEq α] : DecidableEq (Except ε α) := fun a b =>
  match a, b with
  | .ok x, .ok y =>
    if h : x = y then .isTrue (by rw [h]) else .isFalse (by intro hc; cases hc; exact h rfl)
  | .ok _, .error _ => .isFalse (by intro hc; cases hc)
  | .error _, .ok _ => .isFalse (by intro hc; cases hc)
  | .error x, .error y =>
    if h : x = y then .isTrue (by rw [h]) else .isFalse (by intro hc; cases hc; exact h rfl)

/-! ## services/planning_mapper.py -/

/-- The linear pixel→mm map applied to each endpoint by
`map_scout_pixels_to_z_mm` (body of lines 36-41): normalize the pixel by the
scout height and interpolate into `[z_min_mm, z_max_mm]`. No clamping. -/
def scout_pixel_to_mm (z_pixel : ℤ) (scout_height_px : ℤ) (z_min_mm z_max_mm : ℚ) : ℚ :=
  z_min_mm + ((z_pixel : ℚ) / (scout_height_px : ℚ)) * (z_max_mm - z_min_mm)

/-- `map_scout_pixels_to_z_mm` (planning_mapper.py lines 4-43): convert a scout
vertical pixel selection to patient z coordinates in mm; raises ValueError when
the scout height is not positive. -/
def map_scout_pixels_to_z_mm (z_pixel_start z_pixel_end : ℤ) (scout_height_px : ℤ)
    (z_min_mm z_max_mm : ℚ) : Except PyErr (ℚ × ℚ) :=
  if scout_height_px ≤ 0 then
    .error (.valueError "Scout height must be positive")
  else
    .ok (scout_pixel_to_mm z_pixel_start scout_height_px z_min_mm z_max_mm,
         scout_pixel_to_mm z_pixel_end scout_height_px z_min_mm z_max_mm)

/-- Python's builtin `abs` on a (here exactly represented) float. -/
def pyabs (q : ℚ) : ℚ := if q < 0 then -q else q

/-- The inner `find_closest_index` of `map_z_mm_to_slice_indices`
(planning_mapper.py lines 72-76): `min(range(n), key=lambda i: abs(zs[i] - z_mm))`.
Python's `min` walks the indices keeping the first one whose key
`abs(zs[i] - z_mm)` is minimal (a strictly smaller key replaces the running
best), i.e. ties break toward the lower index. The walk over `range(len(zs))`
reading `zs[i]` is the walk over `zs` itself with its index attached. -/
def find_closest_index (zs : List ℚ) (z_mm : ℚ) : ℕ :=
  (zs.enum.foldl
    (fun best p => if pyabs (p.2 - z_mm) < best.2 then (p.1, pyabs (p.2 - z_mm)) else best)
    (0, pyabs (zs.headD 0 - z_mm))).1

/-- `map_z_mm_to_slice_indices` (planning_mapper.py lines 46-85): nearest-slice
lookup of both endpoints over the ascending-sorted z positions, results ordered
`start ≤ end`; raises ValueError on an empty position list. -/
def map_z_mm_to_slice_indices (z_start_mm z_end_mm : ℚ) (z_positions : List ℚ) :
    Except PyErr (ℕ × ℕ) :=
  if z_positions.isEmpty then
    .error (.valueError "z_positions list is empty")
  else
    let zsorted := z_positions.insertionSort (· ≤ ·)
    let start_idx := find_closest_index zsorted z_start_mm
    let end_idx := find_closest_index zsorted z_end_mm
    .ok (min start_idx end_idx, max start_idx end_idx)

/-- Result record of `generate_planning_geometry`. -/
structure PlanningGeometry where
  z_start_mm : ℚ
  z_end_mm : ℚ
  slice_start : ℕ
  slice_end : ℕ
  deriving DecidableEq, Repr

/-- `generate_planning_geometry` (planning_mapper.py lines 88-131): scout
pixels → z mm → slice indices. Python's `min(z_positions)` / `max(z_positions)`
raise ValueError on an empty list, modelled by the leading match. -/
def generate_planning_geometry (z_pixel_start z_pixel_end : ℤ) (scout_height_px : ℤ)
    (z_positions : List ℚ) : Except PyErr PlanningGeometry :=
  match z_positions with
  | [] => .error (.valueError "min() arg is an empty sequence")
  | z :: zs =>
    let z_min_mm := zs.foldl min z
    let z_max_mm := zs.foldl max z
    match map_scout_pixels_to_z_mm z_pixel_start z_pixel_end scout_height_px z_min_mm z_max_mm with
    | .error e => .error e
    | .ok (z_start_mm, z_end_mm) =>
      match map_z_mm_to_slice_indices z_start_mm z_end_mm (z :: zs) with
      | .error e => .error e
      | .ok (slice_start, slice_end) => .ok { z_start_mm, z_end_mm, slice_start, slice_end }

/-- The 50-slice scenario's z positions: 0 mm, 1 mm, …, 49 mm. -/
def zpos50 : List ℚ :=
  [0, 1, 2, 3, 4, 5, 6, 7, 8, 9, 10, 11, 12, 13, 14, 15, 16, 17, 18, 19,
   20, 21, 22, 23, 24, 25, 26, 27, 28, 29, 30, 31, 32, 33, 34, 35, 36, 37, 38, 39,
   40, 41, 42, 43, 44, 45, 46, 47, 48, 49]

set_option maxRecDepth 8000 in
theorem scenario_foldl_min : List.foldl min (0 : ℚ)
    [1, 2, 3, 4, 5, 6, 7, 8, 9, 10, 11, 12, 13, 14, 15, 16, 17, 18, 19,
     20, 21, 22, 23, 24, 25, 26, 27, 28, 29, 30, 31, 32, 33, 34, 35, 36, 37, 38, 39,
     40, 41, 42, 43, 44, 45, 46, 47, 48, 49] = 0 := by decide

set_option maxRecDepth 8000 in
theorem scenario_foldl_max : List.foldl max (0 : ℚ)
    [1, 2, 3, 4, 5, 6, 7, 8, 9, 10, 11, 12, 13, 14, 15, 16, 17, 18, 19,
     20, 21, 22, 23, 24, 25, 26, 27, 28, 29, 30, 31, 32, 33, 34, 35, 36, 37, 38, 39,
     40, 41, 42, 43, 44, 45, 46, 47, 48, 49] = 49 := by decide

theorem scenario_scout : map_scout_pixels_to_z_mm 100 200 400 0 49 = .ok (49/4, 49/2) := by
  norm_num [map_scout_pixels_to_z_mm, scout_pixel_to_mm]

theorem scenario_indices : map_z_mm_to_slice_indices (49/4) (49/2) zpos50 = .ok (12, 24) := by
  norm_num [map_z_mm_to_slice_indices, find_closest_index, zpos50, pyabs, List.enum,
    List.insertionSort, List.orderedInsert]

/-- Full evaluation of the planning scenario: pixel range [100, 200] of a
400-px scout over z positions 0..49 mm gives z range [12.25 mm, 24.5 mm] and
slice indices (12, 24). -/
theorem scenario_planning_full : generate_planning_geometry 100 200 400 zpos50 =
    Except.ok ⟨49/4, 49/2, 12, 24⟩ := by
  rw [show generate_planning_geometry 100 200 400 zpos50 =
      (match map_scout_pixels_to_z_mm 100 200 400
          (List.foldl min (0 : ℚ) zpos50.tail) (List.foldl max (0 : ℚ) zpos50.tail) with
        | .error e => .error e
        | .ok (zs, ze) =>
          match map_z_mm_to_slice_indices zs ze zpos50 with
          | .error e => .error e
          | .ok (s, e) => .ok ⟨zs, ze, s, e⟩) from rfl]
  rw [show zpos50.tail = [1, 2, 3, 4, 5, 6, 7, 8, 9, 10, 11, 12, 13, 14, 15, 16, 17, 18, 19,
     20, 21, 22, 23, 24, 25, 26, 27, 28, 29, 30, 31, 32, 33, 34, 35, 36, 37, 38, 39,
     40, 41, 42, 43, 44, 45, 46, 47, 48, 49] from rfl, scenario_foldl_min, scenario_foldl_max,
     scenario_scout]
  simp only [scenario_indices]

/-- C2 counterexample: planning from pixel range [100, 200] of a 400-px scout
over z positions 0..49 mm does NOT yield slice indices (12, 25): the end
coordinate 24.5 mm is equidistant from slices 24 and 25 and the tie breaks
toward the lower index, so the result is (12, 24). -/
theorem planning_scenario_not_12_25 :
    (generate_planning_geometry 100 200 400 zpos50).map
      (fun g => (g.slice_start, g.slice_end)) ≠ Except.ok (12, 25) := by
  rw [scenario_planning_full]
  intro h
  simp only [Except.map, Except.ok.injEq, Prod.mk.injEq] at h
  omega

/-- C2 (amended): for a 50-slice volume with z-positions 0..49 mm, planning
from pixel range [100, 200] of a 400-pixel-tall scout over the full z-range
maps the endpoints to 12.25 mm and 24.5 mm and yields slice_start = 12 and
slice_end = 24: each mm value maps to the nearest z-position, and the exact
tie of 24.5 mm between indices 24 and 25 breaks toward the lower index 24. -/
theorem planning_scenario_indices_12_24 :
    generate_planning_geometry 100 200 400 zpos50 = Except.ok ⟨49/4, 49/2, 12, 24⟩ ∧
      pyabs ((24 : ℚ) - 49/2) = pyabs ((25 : ℚ) - 49/2) := by
  refine ⟨scenario_planning_full, ?_⟩
  norm_num [pyabs]

/-- C10 counterexample: with a degenerate physical range z_min = z_max = 0 and
scout height 1, the out-of-range pixel −5 still maps to 0 mm, which lies inside
the (degenerate) interval [z_min, z_max] — no clamping happens, yet the output
is not outside the volume's z-range. -/
theorem scout_pixel_outside_maps_inside :
    map_scout_pixels_to_z_mm (-5) 0 1 0 0 = Except.ok (0, 0) ∧
      scout_pixel_to_mm (-5) 1 0 0 = 0 ∧ (-5 : ℤ) < 0 := by
  refine ⟨?_, ?_, by norm_num⟩ <;>
    norm_num [map_scout_pixels_to_z_mm, scout_pixel_to_mm]

/-- C10 (amended): for scout_height_px > 0 and z_min ≤ z_max, the pixel→mm map
is monotone non-decreasing in the pixel argument (hence in each argument of
`map_scout_pixels_to_z_mm`, which applies it componentwise), pixels in
[0, scout_height_px] land inside [z_min, z_max], and — provided z_min < z_max
strictly — pixels outside [0, scout_height_px] land strictly outside
[z_min, z_max]; when z_min = z_max every pixel maps to the constant z value,
so out-of-range pixels do not map outside the range in that degenerate case. -/
theorem scout_pixel_to_mm_monotone_and_range (p p' H : ℤ) (zmin zmax : ℚ)
    (hH : 0 < H) (hz : zmin ≤ zmax) :
    (p ≤ p' → scout_pixel_to_mm p H zmin zmax ≤ scout_pixel_to_mm p' H zmin zmax) ∧
    (0 ≤ p → p ≤ H → zmin ≤ scout_pixel_to_mm p H zmin zmax ∧
      scout_pixel_to_mm p H zmin zmax ≤ zmax) ∧
    (zmin < zmax → p < 0 → scout_pixel_to_mm p H zmin zmax < zmin) ∧
    (zmin < zmax → H < p → zmax < scout_pixel_to_mm p H zmin zmax) ∧
    map_scout_pixels_to_z_mm p p' H zmin zmax =
      Except.ok (scout_pixel_to_mm p H zmin zmax, scout_pixel_to_mm p' H zmin zmax) := by
  have hHq : (0 : ℚ) < (H : ℚ) := by exact_mod_cast hH
  refine ⟨?_, ?_, ?_, ?_, ?_⟩
  · intro hpp
    unfold scout_pixel_to_mm
    have hr : (p : ℚ) / H ≤ (p' : ℚ) / H :=
      (div_le_div_right hHq).mpr (by exact_mod_cast hpp)
    have := mul_le_mul_of_nonneg_right hr (sub_nonneg.mpr hz)
    linarith
  · intro h0 hup
    unfold scout_pixel_to_mm
    have hr0 : (0 : ℚ) ≤ (p : ℚ) / H := by positivity
    have hr1 : (p : ℚ) / H ≤ 1 := by
      rw [div_le_one hHq]; exact_mod_cast hup
    have hlo := mul_nonneg hr0 (sub_nonneg.mpr hz)
    have hhi := mul_le_mul_of_nonneg_right hr1 (sub_nonneg.mpr hz)
    constructor <;> linarith
  · intro hlt hneg
    unfold scout_pixel_to_mm
    have hr : (p : ℚ) / H < 0 := by
      apply div_neg_of_neg_of_pos ?_ hHq
      exact_mod_cast hneg
    have := mul_neg_of_neg_of_pos hr (sub_pos.mpr hlt)
    linarith
  · intro hlt hgt
    unfold scout_pixel_to_mm
    have hr : (1 : ℚ) < (p : ℚ) / H := by
      rw [lt_div_iff hHq, one_mul]; exact_mod_cast hgt
    have := mul_lt_mul_of_pos_right hr (sub_pos.mpr hlt)
    linarith
  · simp [map_scout_pixels_to_z_mm, not_le.mpr hH]

/-- Witness for C10's theorem at p = 3, p' = 5, H = 10, z range [0, 49]. -/
theorem scout_pixel_to_mm_monotone_and_range_witness :
    (0 : ℚ) ≤ scout_pixel_to_mm 3 10 0 49 ∧ scout_pixel_to_mm 3 10 0 49 ≤ 49 :=
  (scout_pixel_to_mm_monotone_and_range 3 5 10 0 49 (by norm_num) (by norm_num)).2.1
    (by norm_num) (by norm_num)

/-! ## services/volume_cropper.py -/

/-- A CT volume: a list of slices (Z axis), each a list of rows (Y), each a
list of HU values (X). The type is inherently 3-dimensional, which plays the
role of the `volume.ndim != 3` guards; numpy volumes are rectangular, so the
regular volumes are the intended domain and shape is read off the first
slice/row as numpy's `.shape` would report it. -/
abbrev Volume := List (List (List ℚ))

/-- `crop_volume_z` (volume_cropper.py lines 5-39): clamp `slice_start` to ≥ 0
and `slice_end` to ≤ last index, raise ValueError when start > end after
clamping, else return the inclusive slice range `volume[s : e+1]`. -/
def crop_volume_z (volume : Volume) (slice_start slice_end : ℤ) : Except PyErr Volume :=
  let z_max : ℤ := (volume.length : ℤ) - 1
  let s := max 0 slice_start
  let e := min z_max slice_end
  if s > e then .error (.valueError "slice_start must be <= slice_end")
  else .ok ((volume.drop s.toNat).take (e - s + 1).toNat)

/-! ## utils/hu_utils.py -/

/-- The per-pixel windowing map of `apply_window` (hu_utils.py lines 14-22):
clip to `[center - width/2, center + width/2]`, normalize to `[0, 1]`, scale by
255 and cast to uint8. After the clip the scaled value lies in `[0, 255]`, so
the numpy uint8 cast is exactly the floor. Only meaningful for `width > 0`,
which the guard in `apply_window` enforces. -/
def window_map (v center width : ℚ) : ℤ :=
  let lower := center - width / 2
  let upper := center + width / 2
  let clipped := min (max v lower) upper
  ⌊(clipped - lower) / (upper - lower) * 255⌋

/-- `apply_window` (hu_utils.py lines 4-22): raises ValueError unless
`width > 0`, else applies `window_map` pixelwise. -/
def apply_window (image : List (List ℚ)) (center width : ℚ) :
    Except PyErr (List (List ℤ)) :=
  if width ≤ 0 then .error (.valueError "Window width must be > 0")
  else .ok (image.map fun row => row.map fun v => window_map v center width)

/-! ## services/mpr_generator.py -/

inductive Orientation where
  | axial | sagittal | coronal
  deriving DecidableEq, Repr

/-- Result record of `get_mpr_metadata`. -/
structure MprMetadata where
  axial_slices : ℕ
  sagittal_slices : ℕ
  coronal_slices : ℕ
  volume_shape : List ℕ
  deriving DecidableEq, Repr

/-- numpy's `volume.shape` = (Z, Y, X) for a (rectangular) volume. -/
def vshape (volume : Volume) : ℕ × ℕ × ℕ :=
  (volume.length, (volume.headD []).length, ((volume.headD []).headD []).length)

/-- The axis a given MPR orientation indexes, per generate_mpr_slice:
axial → Z, sagittal → Y, coronal → X. -/
def axis_length (volume : Volume) : Orientation → ℕ
  | .axial => (vshape volume).1
  | .sagittal => (vshape volume).2.1
  | .coronal => (vshape volume).2.2

/-- `get_mpr_metadata` (mpr_generator.py lines 72-101): slice counts per
orientation straight from the shape. -/
def get_mpr_metadata (volume : Volume) : MprMetadata :=
  let z_size := (vshape volume).1
  let y_size := (vshape volume).2.1
  let x_size := (vshape volume).2.2
  { axial_slices := z_size, sagittal_slices := y_size, coronal_slices := x_size,
    volume_shape := [z_size, y_size, x_size] }

/-- `generate_mpr_slice` (mpr_generator.py lines 7-69): bounds-check the index
against the orientation's axis, extract the 2D slice (sagittal/coronal are
vertically flipped for display), then window it. The base64 PNG encoding is an
out-of-scope collaborator; the model returns the windowed 2D array. -/
def generate_mpr_slice (volume : Volume) (orientation : Orientation) (slice_index : ℤ)
    (window_center window_width : ℚ) : Except PyErr (List (List ℤ)) :=
  let z_size := (vshape volume).1
  let y_size := (vshape volume).2.1
  let x_size := (vshape volume).2.2
  match orientation with
  | .axial =>
    if slice_index < 0 ∨ (z_size : ℤ) ≤ slice_index then
      .error (.valueError "Axial slice index out of range")
    else apply_window (volume.getD slice_index.toNat []) window_center window_width
  | .sagittal =>
    if slice_index < 0 ∨ (y_size : ℤ) ≤ slice_index then
      .error (.valueError "Sagittal slice index out of range")
    else apply_window ((volume.map fun p => p.getD slice_index.toNat []).reverse)
      window_center window_width
  | .coronal =>
    if slice_index < 0 ∨ (x_size : ℤ) ≤ slice_index then
      .error (.valueError "Coronal slice index out of range")
    else apply_window ((volume.map fun p => p.map fun r => r.getD slice_index.toNat 0).reverse)
      window_center window_width

/-- C5: `crop_volume_z` clamps `slice_start` to ≥ 0 and `slice_end` to the
last slice index, fails (ValueError = InvalidRange) exactly when start > end
after clamping, and otherwise returns the inclusive range: for in-bounds
start ≤ end the output has end − start + 1 slices and each output slice is the
corresponding input slice unchanged (full row/column extent). -/
theorem crop_volume_z_spec (volume : Volume) (s e : ℤ) :
    (exceptIsOk (crop_volume_z volume s e) = false ↔
      min ((volume.length : ℤ) - 1) e < max 0 s) ∧
    (0 ≤ s → s ≤ e → e ≤ (volume.length : ℤ) - 1 →
      ((exceptOkD [] (crop_volume_z volume s e)).length : ℤ) = e - s + 1 ∧
      ∀ i : ℕ, (i : ℤ) < e - s + 1 →
        (exceptOkD [] (crop_volume_z volume s e)).getD i [] =
          volume.getD (s.toNat + i) []) := by
  constructor
  · simp only [crop_volume_z]
    split_ifs with h
    · simpa [exceptIsOk] using h
    · simp only [exceptIsOk]
      constructor
      · intro hc; exact absurd hc (by simp)
      · intro hc; exact absurd hc (by omega)
  · intro h0 hse hlast
    have hmax : max 0 s = s := by omega
    have hmin : min ((volume.length : ℤ) - 1) e = e := by omega
    have hcrop : crop_volume_z volume s e =
        .ok ((volume.drop s.toNat).take (e - s + 1).toNat) := by
      simp only [crop_volume_z, hmax, hmin]
      rw [if_neg (by omega : ¬ s > e)]
    rw [hcrop]
    simp only [exceptOkD]
    constructor
    · rw [List.length_take, List.length_drop]; omega
    · intro i hi
      rw [List.getD_eq_getElem?_getD, List.getD_eq_getElem?_getD,
        List.getElem?_take, if_pos (by omega : i < (e - s + 1).toNat),
        List.getElem?_drop]

/-- A tiny 3×1×2 volume used as concrete input for witnesses. -/
def vol3 : Volume := [[[1, 2]], [[3, 4]], [[5, 6]]]

/-- Witness for C5's theorem: cropping slices [1, 2] of the 3-slice `vol3`
yields 2 slices. -/
theorem crop_volume_z_spec_witness :
    ((exceptOkD [] (crop_volume_z vol3 1 2)).length : ℤ) = 2 := by
  simpa using ((crop_volume_z_spec vol3 1 2).2 (by omega) (by omega) (by simp [vol3])).1

/-- C8: for fixed positive width the per-pixel windowing map is monotone
(order-reversing) in the center — raising the center never raises any fixed
HU value's output — every pixel below center − width/2 maps to 0, every pixel
above center + width/2 maps to 255, and `apply_window` applies exactly this
map to every pixel of the image. -/
theorem apply_window_monotone_clamp (image : List (List ℚ)) (v c₁ c₂ w : ℚ) (hw : 0 < w) :
    (c₁ ≤ c₂ → window_map v c₂ w ≤ window_map v c₁ w) ∧
    (v < c₁ - w / 2 → window_map v c₁ w = 0) ∧
    (c₁ + w / 2 < v → window_map v c₁ w = 255) ∧
    apply_window image c₁ w =
      Except.ok (image.map fun row => row.map fun u => window_map u c₁ w) := by
  have hwm : ∀ (u c : ℚ), window_map u c w =
      ⌊(min (max u (c - w / 2)) (c + w / 2) - (c - w / 2)) / w * 255⌋ := by
    intro u c
    simp only [window_map]
    rw [show (c + w / 2) - (c - w / 2) = w by ring]
  refine ⟨?_, ?_, ?_, ?_⟩
  · intro hc
    rw [hwm, hwm]
    apply Int.floor_le_floor
    apply mul_le_mul_of_nonneg_right ?_ (by norm_num : (0:ℚ) ≤ 255)
    apply div_le_div_of_nonneg_right ?_ (le_of_lt hw)
    simp only [min_def, max_def]
    split_ifs <;> linarith
  · intro hv
    rw [hwm, max_eq_right (le_of_lt hv), min_eq_left (by linarith), sub_self, zero_div,
      zero_mul]
    exact Int.floor_zero
  · intro hv
    rw [hwm, max_eq_left (by linarith), min_eq_right (by linarith),
      show (c₁ + w / 2) - (c₁ - w / 2) = w by ring, div_self (ne_of_gt hw), one_mul]
    norm_num
  · simp [apply_window, not_le.mpr hw]

/-- Witness for C8's theorem: with the default window center 40 / width 400,
−1000 HU (air) maps to 0 and +500 HU maps to 255. -/
theorem apply_window_monotone_clamp_witness :
    window_map (-1000) 40 400 = 0 ∧ window_map 500 40 400 = 255 :=
  ⟨(apply_window_monotone_clamp [] (-1000) 40 40 400 (by norm_num)).2.1 (by norm_num),
   (apply_window_monotone_clamp [] 500 40 40 400 (by norm_num)).2.2.1 (by norm_num)⟩

/-- C6 counterexample: with window width 0 (non-positive), `generate_mpr_slice`
fails with InvalidInput (the ValueError from `apply_window`) even though the
requested axial index 0 is inside [0, 1) — so "fails iff the index is outside
[0, axis_length)" does not hold as stated. -/
theorem generate_mpr_slice_fails_in_range :
    generate_mpr_slice [[[(0 : ℚ)]]] Orientation.axial 0 40 0 =
      Except.error (PyErr.valueError "Window width must be > 0") ∧
    (0 : ℤ) ≤ 0 ∧ (0 : ℤ) < (axis_length [[[(0 : ℚ)]]] Orientation.axial : ℤ) := by
  refine ⟨?_, by omega, by simp [axis_length, vshape]⟩
  simp [generate_mpr_slice, apply_window, vshape]

/-- C6 (amended): `get_mpr_metadata` reports axial == Z, sagittal == Y,
coronal == X matching the volume's shape, and — provided the window width is
positive — `generate_mpr_slice` fails with InvalidInput if and only if the
requested index is outside [0, axis_length) for the orientation's axis (a
non-positive window width additionally fails at any in-range index, via the
windowing step). -/
theorem mpr_metadata_and_bounds (volume : Volume) (o : Orientation) (i : ℤ)
    (wc ww : ℚ) (hw : 0 < ww) :
    get_mpr_metadata volume =
      { axial_slices := (vshape volume).1, sagittal_slices := (vshape volume).2.1,
        coronal_slices := (vshape volume).2.2,
        volume_shape := [(vshape volume).1, (vshape volume).2.1, (vshape volume).2.2] } ∧
    (exceptIsOk (generate_mpr_slice volume o i wc ww) = true ↔
      0 ≤ i ∧ i < (axis_length volume o : ℤ)) := by
  refine ⟨rfl, ?_⟩
  have hww : ¬ (ww ≤ 0) := not_le.mpr hw
  cases o <;>
    · simp only [generate_mpr_slice, axis_length]
      split_ifs with h
      · simp only [exceptIsOk]
        constructor
        · intro hc; exact absurd hc (by simp)
        · intro hc; exact absurd hc (by omega)
      · simp only [apply_window, if_neg hww, exceptIsOk]
        constructor
        · intro hc; omega
        · intro hc; trivial

/-- Witness for C6's theorem: a 1×1×1 volume, axial index 0, default window. -/
theorem mpr_metadata_and_bounds_witness :
    exceptIsOk (generate_mpr_slice [[[(0 : ℚ)]]] Orientation.axial 0 40 400) = true :=
  (mpr_metadata_and_bounds [[[(0 : ℚ)]]] Orientation.axial 0 40 400 (by norm_num)).2.mpr
    (by refine ⟨by omega, ?_⟩; simp [axis_length, vshape])

/-! ## routes/reconstruction.py -/

/-- Python's `int()` applied to a float: truncation toward zero. -/
def pyint (q : ℚ) : ℤ := if 0 ≤ q then ⌊q⌋ else -⌊-q⌋

/-- `resample_slice_thickness` (reconstruction.py lines 76-96), size/spacing
arithmetic: SimpleITK sizes and spacings are (x, y, z) tuples; the new spacing
keeps the in-plane spacings and replaces the z spacing by the requested
thickness, and each new dimension is `int(size[i] * spacing[i] /
new_spacing[i])`. The interpolation itself is the out-of-scope Resample
collaborator; the function returns (new size, new spacing), and the derived
series later written (`save_as_dicom_series`) has new-z-size many slices. -/
def resample_slice_thickness_params (size : ℕ × ℕ × ℕ) (spacing : ℚ × ℚ × ℚ)
    (new_thickness : ℚ) : (ℤ × ℤ × ℤ) × (ℚ × ℚ × ℚ) :=
  let new_spacing := (spacing.1, spacing.2.1, new_thickness)
  ((pyint ((size.1 : ℚ) * spacing.1 / new_spacing.1),
    pyint ((size.2.1 : ℚ) * spacing.2.1 / new_spacing.2.1),
    pyint ((size.2.2 : ℚ) * spacing.2.2 / new_spacing.2.2)),
   new_spacing)

theorem pyint_natCast (n : ℕ) : pyint (n : ℚ) = n := by
  simp [pyint, Nat.cast_nonneg]

/-- C7: resampling recomputes the slice count from the spacing ratio while
holding the in-plane spacing (and hence in-plane sizes) fixed: a 40-slice
volume at 1 mm slice spacing resampled to 5 mm thickness has int(40·1/5) = 8
slices, with the x/y sizes and spacings unchanged. -/
theorem resample_slice_thickness_40_at_1mm_to_5mm (x y : ℕ) (sx sy : ℚ)
    (hx : sx ≠ 0) (hy : sy ≠ 0) :
    resample_slice_thickness_params (x, y, 40) (sx, sy, 1) 5 =
      (((x : ℤ), (y : ℤ), 8), (sx, sy, 5)) := by
  have h1 : pyint ((x : ℚ) * sx / sx) = x := by
    rw [mul_div_assoc, div_self hx, mul_one, pyint_natCast]
  have h2 : pyint ((y : ℚ) * sy / sy) = y := by
    rw [mul_div_assoc, div_self hy, mul_one, pyint_natCast]
  have h3 : pyint ((40 : ℚ) / 5) = 8 := by norm_num [pyint]
  simp [resample_slice_thickness_params, h1, h2, h3]

/-- Witness for C7's theorem: a 512×512×40 volume at spacing (1, 1, 1). -/
theorem resample_slice_thickness_40_witness :
    resample_slice_thickness_params (512, 512, 40) (1, 1, 1) 5 =
      (((512 : ℤ), (512 : ℤ), 8), (1, 1, 5)) :=
  resample_slice_thickness_40_at_1mm_to_5mm 512 512 1 1 (by norm_num) (by norm_num)

/-- A stored plan (storage/plans/{safe_case_id}.json): the fields
`apply_reconstruction` reads. -/
structure Plan where
  slice_start : ℤ
  slice_end : ℤ
  deriving DecidableEq, Repr

/-- The expensive pipeline steps of `apply_reconstruction` (reconstruction.py
lines 192-255), in execution order. An empty effect list means the pipeline
did not run. -/
inductive ReconEffect where
  | load | crop | filter | resample | enhance | writeVolume | writeSeries
  deriving DecidableEq, Repr

/-- The JSON descriptor `apply_reconstruction` returns (both branches build
the same shape, reconstruction.py lines 180-190 and 257-267). -/
structure ReconDescriptor where
  case_id : String
  recon_id : String
  volume_url : String
  dicom_series_url : String
  kernel : String
  slice_thickness : String
  planning_ref : Option Plan
  used_planning : Bool
  deriving DecidableEq, Repr

/-- The on-disk state `apply_reconstruction` interacts with: which derived
`.nii` artifacts exist, and the plan file per safe case id. -/
structure ReconState where
  artifacts : List String
  planStore : List (String × Plan)
  deriving DecidableEq, Repr

/-- `case_id.replace("/", "_")` (reconstruction.py line 165). -/
def safe_case_id (c : String) : String :=
  String.map (fun ch => if ch = '/' then '_' else ch) c

/-- The deterministic reconstruction id `"ST_{thickness}_K_{kernel}"`
(reconstruction.py line 173); `thickness` is the string rendering of the
requested slice thickness. -/
def recon_id_of (thickness kernel : String) : String :=
  "ST_" ++ thickness ++ "_K_" ++ kernel

/-- The derived artifact path `PLANNING_ROOT/{safe}/recon/{recon_id}.nii`
(reconstruction.py lines 174-177). -/
def recon_output_path (case_id thickness kernel : String) : String :=
  "storage/plans/" ++ safe_case_id case_id ++ "/recon/" ++ recon_id_of thickness kernel ++ ".nii"

/-- `apply_reconstruction` (reconstruction.py lines 155-267) as a state
machine: resolve the effective planning data (payload first, else the stored
plan when `use_planning`), build the reconstruction id and artifact path; if
the artifact exists return its descriptor with no pipeline effects and the
state unchanged; otherwise run load → (crop when planning) → filter →
resample → enhance → write volume → write series and record the artifact. The
volume contents are carried by the out-of-scope SimpleITK collaborators; the
effect trace records which pipeline stages execute. -/
def apply_reconstruction (st : ReconState) (case_id thickness kernel : String)
    (use_planning : Bool) (payload_planning : Option Plan) :
    ReconDescriptor × ReconState × List ReconEffect :=
  let safe := safe_case_id case_id
  let planning_data : Option Plan :=
    match payload_planning with
    | some p => some p
    | none => if use_planning then st.planStore.lookup safe else none
  let rid := recon_id_of thickness kernel
  let output_path := recon_output_path case_id thickness kernel
  let descriptor : ReconDescriptor :=
    { case_id := case_id, recon_id := rid, volume_url := output_path,
      dicom_series_url := "/storage/plans/" ++ safe ++ "/recon/" ++ rid ++ "/",
      kernel := kernel, slice_thickness := thickness, planning_ref := planning_data,
      used_planning := use_planning && planning_data.isSome }
  if output_path ∈ st.artifacts then
    (descriptor, st, [])
  else
    (descriptor,
     { st with artifacts := output_path :: st.artifacts },
     [ReconEffect.load] ++
       (if use_planning && planning_data.isSome then [ReconEffect.crop] else []) ++
       [ReconEffect.filter, ReconEffect.resample, ReconEffect.enhance,
        ReconEffect.writeVolume, ReconEffect.writeSeries])

/-- C1: reconstruction is idempotent per parameter set. If the derived
artifact for `"ST_{thickness}_K_{kernel}"` already exists on disk the call
performs no pipeline work and leaves the state unchanged (first conjunct,
for any state with the artifact present, any plan store contents and any
payload plan). Consequently a second call with the same case/thickness/kernel
— after the first call, and even after the plan store has been replaced
arbitrarily and a different payload plan is supplied — runs no pipeline
effects and returns a descriptor referencing the same artifact paths
(remaining conjuncts). -/
theorem apply_reconstruction_idempotent (st : ReconState)
    (case_id thickness kernel : String) (up up₂ : Bool) (p₁ p₂ : Option Plan)
    (newPlans : List (String × Plan))
    (hmem : recon_output_path case_id thickness kernel ∈ st.artifacts) :
    (apply_reconstruction st case_id thickness kernel up p₁).2.1 = st ∧
    (apply_reconstruction st case_id thickness kernel up p₁).2.2 = [] ∧
    (let r₁ := apply_reconstruction st case_id thickness kernel up p₁
     let st₂ : ReconState := { r₁.2.1 with planStore := newPlans }
     let r₂ := apply_reconstruction st₂ case_id thickness kernel up₂ p₂
     r₂.2.2 = [] ∧ r₂.1.volume_url = r₁.1.volume_url ∧
       r₂.1.recon_id = r₁.1.recon_id ∧
       r₂.1.dicom_series_url = r₁.1.dicom_series_url) := by
  refine ⟨?_, ?_, ?_⟩ <;>
    simp [apply_reconstruction, hmem]

/-- C1 second-call idempotency without any presence hypothesis: from an
arbitrary initial state (artifact present or not), the second call with the
same case/thickness/kernel runs no pipeline effects, leaves its state
unchanged, and references the same artifact as the first call, even though
the plan store was replaced and a different payload plan is supplied. -/
theorem apply_reconstruction_second_call_cached (st : ReconState)
    (case_id thickness kernel : String) (up up₂ : Bool) (p₁ p₂ : Option Plan)
    (newPlans : List (String × Plan)) :
    (let r₁ := apply_reconstruction st case_id thickness kernel up p₁
     let st₂ : ReconState := { r₁.2.1 with planStore := newPlans }
     let r₂ := apply_reconstruction st₂ case_id thickness kernel up₂ p₂
     r₂.2.2 = [] ∧ r₂.2.1 = st₂ ∧ r₂.1.volume_url = r₁.1.volume_url ∧
       r₂.1.recon_id = r₁.1.recon_id ∧
       r₂.1.dicom_series_url = r₁.1.dicom_series_url) := by
  by_cases hmem : recon_output_path case_id thickness kernel ∈ st.artifacts <;>
    simp [apply_reconstruction, hmem]

/-- Witness for C1's theorem: an artifact for case "A/B/c1", thickness "5.0",
kernel "bone" already on disk; a second request recomputes nothing. -/
theorem apply_reconstruction_idempotent_witness :
    (apply_reconstruction
        ⟨[recon_output_path "A/B/c1" "5.0" "bone"], []⟩
        "A/B/c1" "5.0" "bone" true none).2.2 = [] :=
  (apply_reconstruction_idempotent
      ⟨[recon_output_path "A/B/c1" "5.0" "bone"], []⟩
      "A/B/c1" "5.0" "bone" true true none none [] (by simp)).2.1

/-! ## routes/cine.py -/

/-- The flat string cache key `f"{case_id}_{use_planning}_{recon_id or 'none'}"`
(cine.py line 21). Python renders the boolean as "True"/"False", and
`recon_id or 'none'` replaces both None and the empty string by "none". The
flattening is not injective: distinct (case, planning, recon) tuples can
collide, e.g. recon_id = "none" against recon_id absent. -/
def cine_cache_key (case_id : String) (use_planning : Bool) (recon_id : Option String) : String :=
  case_id ++ "_" ++ (if use_planning then "True" else "False") ++ "_" ++
    (match recon_id with
     | some r => if r = "" then "none" else r
     | none => "none")

/-- `get_cached_volume` (cine.py lines 19-99) with the volume/window loading
(lines 27-85, filesystem and study-cache reads) abstracted into the `load`
parameter. The cache is the insertion-ordered dict `_volume_cache` modelled as
an association list in insertion order: a hit returns the stored entry and
leaves the cache alone; a miss loads, appends the entry at the end, and — when
the size then exceeds 3 — deletes `list(keys())[0]`, the oldest entry.
Returns (entry, new cache). -/
def get_cached_volume {V : Type} (load : String → Bool → Option String → V)
    (cache : List (String × V)) (case_id : String) (use_planning : Bool)
    (recon_id : Option String) : V × List (String × V) :=
  let key := cine_cache_key case_id use_planning recon_id
  match cache.lookup key with
  | some v => (v, cache)
  | none =>
    let v := load case_id use_planning recon_id
    let cache' := cache ++ [(key, v)]
    let cache'' := if 3 < cache'.length then cache'.tail else cache'
    (v, cache'')

/-- A loader that records exactly which (case, planning, recon) tuple it was
asked to load, so cache entries are distinguishable per tuple. -/
def tuple_loader : String → Bool → Option String → String × Bool × Option String :=
  fun c u r => (c, u, r)

/-- C4 counterexample: the distinct tuples ("a", true, none) and
("a", true, some "none") flatten to the same string key "a_True_none", so the
second request is served the first tuple's cached entry — distinct tuples can
share a cache entry. -/
theorem cine_cache_distinct_tuples_share :
    (get_cached_volume tuple_loader
        (get_cached_volume tuple_loader [] "a" true none).2 "a" true (some "none")).1 =
      ("a", true, (none : Option String)) ∧
    ("a", true, (none : Option String)) ≠ ("a", true, (some "none" : Option String)) := by
  constructor
  · decide
  · decide

theorem lookup_append_single {V : Type} (l : List (String × V)) (key : String) (v : V)
    (h : l.lookup key = none) : (l ++ [(key, v)]).lookup key = some v := by
  induction l with
  | nil => simp [List.lookup]
  | cons a t ih =>
    simp only [List.lookup, List.cons_append] at h ⊢
    cases hak : (key == a.1) with
    | true => simp only [hak] at h; exact absurd h (by simp)
    | false => simp only [hak] at h ⊢; exact ih h

theorem lookup_cons_none {V : Type} (a : String × V) (t : List (String × V)) (key : String)
    (h : (a :: t).lookup key = none) : t.lookup key = none := by
  simp only [List.lookup] at h
  cases hak : (key == a.1) with
  | true => simp only [hak] at h; exact absurd h (by simp)
  | false => simp only [hak] at h; exact h

/-- C4 (amended): for any cache currently holding at most 3 entries, (i) after
a request the cache again holds at most 3 entries, (ii) an immediate second
request with the same tuple returns the same entry and leaves the cache
unchanged (same string key, hence a hit), and (iii) a request whose flattened
key is not yet cached gets its own freshly loaded entry. Distinct tuples
share an entry only when their flattened string keys coincide (see the
counterexample), so "keyed by the full tuple" holds only up to that
non-injective flattening. -/
theorem cine_cache_spec {V : Type} (load : String → Bool → Option String → V)
    (cache : List (String × V)) (c : String) (u : Bool) (r : Option String)
    (hlen : cache.length ≤ 3) :
    ((get_cached_volume load cache c u r).2.length ≤ 3) ∧
    (get_cached_volume load (get_cached_volume load cache c u r).2 c u r =
      ((get_cached_volume load cache c u r).1, (get_cached_volume load cache c u r).2)) ∧
    (cache.lookup (cine_cache_key c u r) = none →
      (get_cached_volume load cache c u r).1 = load c u r) := by
  cases hl : cache.lookup (cine_cache_key c u r) with
  | some v =>
    refine ⟨?_, ?_, ?_⟩
    · simp [get_cached_volume, hl, hlen]
    · simp [get_cached_volume, hl]
    · intro h; exact absurd h (by simp)
  | none =>
    have hlen1 : (cache ++ [(cine_cache_key c u r, load c u r)]).length =
        cache.length + 1 := by simp
    have hfind : ((get_cached_volume load cache c u r).2).lookup (cine_cache_key c u r) =
        some (load c u r) := by
      simp only [get_cached_volume, hl]
      split_ifs with hgrow
      · cases cache with
        | nil => rw [hlen1] at hgrow; simp at hgrow
        | cons a t =>
          have ht : t.lookup (cine_cache_key c u r) = none := lookup_cons_none a t _ hl
          simpa using lookup_append_single t _ (load c u r) ht
      · exact lookup_append_single cache _ (load c u r) hl
    refine ⟨?_, ?_, ?_⟩
    · simp only [get_cached_volume, hl]
      split_ifs with hgrow
      · rw [List.length_tail, hlen1]
        omega
      · rw [hlen1] at hgrow
        rw [hlen1]
        omega
    · have hv : (get_cached_volume load cache c u r).1 = load c u r := by
        simp [get_cached_volume, hl]
      rcases heq : get_cached_volume load cache c u r with ⟨v1, cc⟩
      rw [heq] at hfind hv
      simp only at hfind hv
      simp [get_cached_volume, hfind, hv]
    · intro _
      simp [get_cached_volume, hl]

/-- Witness for C4's theorem: a request on the empty cache leaves at most 3
entries. -/
theorem cine_cache_spec_witness :
    (get_cached_volume tuple_loader [] "a" true none).2.length ≤ 3 :=
  (cine_cache_spec tuple_loader [] "a" true none (by simp)).1

/-! ## services/stl_generator.py -/

/-- Python's `str(e)` for the modelled exceptions: the carried message. -/
def pyErrStr : PyErr → String
  | .valueError m => m
  | .runtimeError m => m
  | .indexError => "list index out of range"
  | .fileNotFound m => m
  | .httpNotFound m => m

/-- Modelled from the spec: the isosurface collaborator (§6, a consumed
capability — `vtkFlyingEdges3D` is outside this repository) "generating a
triangle mesh representing all points in a scalar field equal to a given
threshold value" (spec glossary). The model counts the field's points at the
threshold; the claims only need that a field with no voxel at the threshold —
e.g. an all-air volume probed at HU 200 — yields a mesh with zero vertices. -/
def isosurface_point_count (field : List ℤ) (hu : ℤ) : ℕ :=
  (field.filter (fun v => v == hu)).length

/-- The body of `generate_stl` (stl_generator.py lines 147-234), parameterized
by the vertex count the extraction collaborator returns: the zero-vertex check
after extraction (lines 159-160) raises ValueError — the NoSurfaceFound
error of the spec's taxonomy; decimation/smoothing/cleanup/write are mesh
collaborators that succeed on a non-empty mesh, yielding a temp-file path. -/
def generate_stl_body (num_points : ℕ) (hu : ℤ) : Except PyErr String :=
  if num_points = 0 then
    .error (.valueError ("No surface found at HU threshold " ++ toString hu ++
      ". Try adjusting the threshold."))
  else .ok "mesh.stl"

/-- `generate_stl` (stl_generator.py lines 122-237): the whole body runs
inside `try/except Exception as e`, whose handler re-raises *every* failure —
including the zero-vertex ValueError — as
`RuntimeError(f"Failed to generate STL: {str(e)}")` (lines 236-237), i.e. as
the spec's ProcessingError. -/
def generate_stl (num_points : ℕ) (hu : ℤ) : Except PyErr String :=
  match generate_stl_body num_points hu with
  | .ok p => .ok p
  | .error e => .error (.runtimeError ("Failed to generate STL: " ++ pyErrStr e))

/-- C3 (code bug): on an all-air volume (every voxel −1000 HU) the isosurface
at HU 200 has zero vertices, and `generate_stl`'s body does raise the
NoSurfaceFound ValueError — but the function's catch-all handler rewraps it,
so `generate_stl` itself fails with RuntimeError ("ProcessingError"), not
NoSurfaceFound, contradicting the claim, the function's own docstring
("Raises: ValueError: If no surface found at threshold") and the routes'
dedicated `except ValueError` → 400 handler (routes/stl.py lines 77-78). -/
theorem stl_no_surface_rewrapped :
    isosurface_point_count (List.replicate 27 (-1000)) 200 = 0 ∧
    generate_stl_body (isosurface_point_count (List.replicate 27 (-1000)) 200) 200 =
      Except.error (PyErr.valueError
        "No surface found at HU threshold 200. Try adjusting the threshold.") ∧
    generate_stl (isosurface_point_count (List.replicate 27 (-1000)) 200) 200 =
      Except.error (PyErr.runtimeError
        "Failed to generate STL: No surface found at HU threshold 200. Try adjusting the threshold.") := by
  refine ⟨by decide, ?_, ?_⟩ <;> rfl

/-! ## services/dicom_loader.py -/

/-- The per-slice data `load_dicom_series` reads from a decoded DICOM
dataset; `sliceThickness` is the optional SliceThickness tag, the other tags
are taken as present (their absence is a different failure mode than the one
under study). -/
structure DicomSlice where
  z : ℚ
  sliceThickness : Option ℚ
  rows : ℕ
  cols : ℕ
  pixel_spacing : ℚ × ℚ
  orientation : List ℚ
  origin : List ℚ
  rescaleSlope : ℚ
  rescaleIntercept : ℚ
  pixels : List (List ℚ)
  deriving DecidableEq, Repr, Inhabited

/-- The dictionary `load_dicom_series` returns. -/
structure LoadedSeries where
  volume : Volume
  z_positions : List ℚ
  pixel_spacing : ℚ × ℚ
  slice_thickness : ℚ
  orientation : List ℚ
  origin : List ℚ
  rows : ℕ
  cols : ℕ
  deriving DecidableEq, Repr

/-- `load_dicom_series` (dicom_loader.py lines 8-110). An input file is `none`
when `pydicom.dcmread` failed (skipped, line 45-47). RuntimeError when there
are no files or no decodable files; slices sorted ascending by z (Python's
stable sort). The slice-thickness line (73-75)

  `float(getattr(ref_ds, "SliceThickness", abs(z_positions[1] - z_positions[0])))`

evaluates getattr's *default argument eagerly*, so `z_positions[1]` is
subscripted before the tag is consulted: with fewer than two slices this line
raises IndexError whether or not the tag is present (modelled by matching on
both subscripts before reading the tag). Rescale slope/intercept are read
from the first slice and applied to every slice (lines 81-93). -/
def load_dicom_series (files : List (Option DicomSlice)) : Except PyErr LoadedSeries :=
  if files.isEmpty then .error (.runtimeError "No DICOM files found") else
  let datasets := files.filterMap id
  if datasets.isEmpty then .error (.runtimeError "No readable DICOM files found") else
  let sorted := datasets.insertionSort (fun a b => a.z ≤ b.z)
  let z_positions := sorted.map (·.z)
  let ref := sorted.headD default
  match z_positions.get? 1, z_positions.get? 0 with
  | some z1, some z0 =>
    let slice_thickness :=
      match ref.sliceThickness with
      | some t => t
      | none => pyabs (z1 - z0)
    .ok { volume := sorted.map (fun d => d.pixels.map (fun row => row.map
            (fun p => p * ref.rescaleSlope + ref.rescaleIntercept))),
          z_positions := z_positions,
          pixel_spacing := ref.pixel_spacing,
          slice_thickness := slice_thickness,
          orientation := ref.orientation,
          origin := ref.origin,
          rows := ref.rows, cols := ref.cols }
  | _, _ => .error .indexError

/-- A single decodable slice that DOES carry the nominal SliceThickness tag. -/
def single_slice_with_tag : DicomSlice :=
  { z := 0, sliceThickness := some 2, rows := 1, cols := 1, pixel_spacing := (1, 1),
    orientation := [1, 0, 0, 0, 1, 0], origin := [0, 0, 0],
    rescaleSlope := 1, rescaleIntercept := 0, pixels := [[5]] }

/-- C9 counterexample: a series with exactly one decodable slice fails with
IndexError even though its dataset DOES carry the SliceThickness tag — the
eagerly evaluated getattr fallback indexes the non-existent second z-position
regardless of the tag, so tag presence does not make single-slice assembly
succeed. -/
theorem single_slice_with_tag_fails :
    load_dicom_series [some single_slice_with_tag] = Except.error PyErr.indexError ∧
    single_slice_with_tag.sliceThickness = some 2 :=
  ⟨rfl, rfl⟩

/-- C9 (amended): assembling a series with exactly one decodable slice always
fails with IndexError — whether or not the slice carries the nominal
SliceThickness tag — because `getattr`'s fallback expression
`abs(z_positions[1] - z_positions[0])` is evaluated eagerly and indexes the
missing second z-position. In particular the tag-absent case of the claim does
fail, but the series being non-empty never rescues a single-slice load. -/
theorem load_dicom_series_single_slice_fails (d : DicomSlice) :
    load_dicom_series [some d] = Except.error PyErr.indexError := by
  simp [load_dicom_series, List.insertionSort, List.orderedInsert]

end DicomViewer
